import Mathlib

/-!
Shallow embedding of the `ts-guardian` runtime validation library
(`src/index.tsx`, latest iteration) together with the earlier grammar
iteration's `getBasicTypeCheckerFor` (`src/unnamed/part_004`).

JavaScript values are modelled as finite trees (`JSVal`); numbers are
modelled as the integers together with `NaN` — the one number at which
strict equality (`===`) and the SameValueZero comparison of
`Array.prototype.includes` disagree (`NaN === NaN` is `false` but
`[NaN].includes(NaN)` is `true`); other float-only values add no
distinction any claim depends on.  Internal type definitions
(`InternalTypeDef` in the source) are modelled as the inductive `ITD`:
in the source a marked definition is a JS array whose first element is
one of the marker strings `'a' 'r' 'l' 'i' '&'`, and a tuple definition
is any other array; no TypeScript-legal tuple element is a bare marker
string, so the representations are disjoint and separate constructors
are observationally faithful.
-/

namespace TsG

/-- A JavaScript runtime value, as a finite tree.  Functions and symbols
carry an identity tag only; they are never invoked by the evaluator.
`vNaN` is the number `NaN` (`typeof NaN === 'number'`), kept separate
from the integer numbers because it is the one number whose `===` and
SameValueZero behaviour differ. -/
inductive JSVal where
  | vUndefined
  | vNull
  | vBool (b : Bool)
  | vNum (n : Int)
  | vNaN
  | vBigint (n : Int)
  | vStr (s : String)
  | vSym (id : Nat)
  | vFunc (id : Nat)
  | vArr (elems : List JSVal)
  | vObj (fields : List (String × JSVal))

/-- The JS strict comparison `v === null`. -/
def isNullV : JSVal → Bool
  | .vNull => true
  | _ => false

/-- The JS strict comparison `v === undefined` (`undefinedGuard`). -/
def isUndefinedV : JSVal → Bool
  | .vUndefined => true
  | _ => false

/-- The result of the JS `typeof` operator on a value. -/
def typeofStr : JSVal → String
  | .vUndefined => "undefined"
  | .vNull => "object"
  | .vBool _ => "boolean"
  | .vNum _ => "number"
  | .vNaN => "number"
  | .vBigint _ => "bigint"
  | .vStr _ => "string"
  | .vSym _ => "symbol"
  | .vFunc _ => "function"
  | .vArr _ => "object"
  | .vObj _ => "object"

/-- JS `Array.isArray`. -/
def jsIsArray : JSVal → Bool
  | .vArr _ => true
  | _ => false

/-- JS `Object.values` on a value already known to be a non-null object
(for arrays this is the element list, for plain objects the list of own
property values). -/
def objectValues : JSVal → List JSVal
  | .vArr elems => elems
  | .vObj fields => fields.map Prod.snd
  | _ => []

/-- JS property read `value[k]` for a string key, yielding `undefined`
for an absent property.  For arrays, a numeric key reads the element. -/
def jsGet (v : JSVal) (k : String) : JSVal :=
  match v with
  | .vObj fields => ((fields.find? (fun f => f.1 == k)).map Prod.snd).getD .vUndefined
  | .vArr elems =>
    match k.toNat? with
    | some i => elems.getD i .vUndefined
    | none => .vUndefined
  | _ => .vUndefined

/-- JS array index read `value[i]` on an array value. -/
def jsIndex (elems : List JSVal) (i : Nat) : JSVal := elems.getD i .vUndefined

/-- A `Literal` (`string | number | boolean`) as in the source; `nan`
is the number literal `NaN`. -/
inductive Literal where
  | str (s : String)
  | num (n : Int)
  | nan
  | bool (b : Bool)
deriving DecidableEq

/-- JS strict equality `l === v` between a primitive literal and an
arbitrary value: no coercion, and never true for `NaN` (`NaN === NaN`
is `false`, so the `nan` arm falls to the catch-all). -/
def strictLitEq : Literal → JSVal → Bool
  | .str s, .vStr t => s == t
  | .num n, .vNum m => n == m
  | .bool b, .vBool c => b == c
  | _, _ => false

/-- The SameValueZero comparison performed member by member by
`t.includes(value)` in `literalGuard`: the same as strict equality
except that `NaN` matches `NaN`. -/
def svzLitEq : Literal → JSVal → Bool
  | .nan, .vNaN => true
  | .str s, .vStr t => s == t
  | .num n, .vNum m => n == m
  | .bool b, .vBool c => b == c
  | _, _ => false

/-- A constructor reference as passed to `isInstanceOf`/`orInstanceOf`:
either a real constructor (carrying its `instanceof` predicate, i.e.
prototype-chain membership), or a non-constructor value, for which the
JS expression `value instanceof t` throws a `TypeError`. -/
inductive Ctor where
  | valid (test : JSVal → Bool)
  | invalid

/-- The JS expression `value instanceof t` (`instanceGuard` call site):
returns a boolean for a real constructor and throws otherwise. -/
def instanceCheck : Ctor → JSVal → Except Unit Bool
  | .valid test, v => .ok (test v)
  | .invalid, _ => .error ()

/-- `InternalTypeDef` from the source.  `basic` covers the whole string
leaf space (plain tags, `[]`-suffixed and `?`-suffixed forms alike,
exactly as the source dispatches on the string at match time).
`guardF` is an embedded guard function, which may throw (`.error`).
`undef` models a JS `undefined` appearing as a definition (this is what
`prevTypeDefinitions.slice(-1)[0]` yields on an empty OR-set). -/
inductive ITD where
  | basic (tag : String)
  | guardF (g : JSVal → Except Unit Bool)
  | arr (inner : ITD)
  | recOf (inner : ITD)
  | lit (vals : List Literal)
  | inst (c : Ctor)
  | andM (ds : List ITD)
  | tuple (ds : List ITD)
  | objShape (fields : List (String × ITD))
  | undef

/-- Model of JS `t.endsWith(p)` (suffix test on the character list). -/
def jsEndsWith (s p : String) : Bool := decide (p.data <:+ s.data)

/-- Model of JS `t.slice(0, -n)` (drop the last `n` characters). -/
def jsSliceDrop (s : String) (n : Nat) : String := ⟨s.data.take (s.data.length - n)⟩

/-- The basic-type predicates `anyGuard` .. `unknownGuard` of the source,
dispatched as in `mainGuard`'s `switch` over plain tag strings. -/
def baseBasicMatch (tag : String) (v : JSVal) : Bool :=
  match tag with
  | "any" => true
  | "boolean" => typeofStr v == "boolean"
  | "bigint" => typeofStr v == "bigint"
  | "function" => typeofStr v == "function"
  | "null" => isNullV v
  | "number" => typeofStr v == "number"
  | "object" => typeofStr v == "object"
  | "string" => typeofStr v == "string"
  | "symbol" => typeofStr v == "symbol"
  | "undefined" => isUndefinedV v
  | "unknown" => true
  | _ => false

/-- The string branch of `mainGuard` (source lines 105-123): a tag
ending in `[]` is an array of the stripped tag, a tag ending in `?`
matches the stripped tag or `undefined`, and otherwise the plain tag
`switch` applies.  Basic string definitions only ever recurse into
basic string definitions in the source, so this branch is a closed
sub-evaluator. -/
def basicMatch (tag : String) (v : JSVal) : Bool :=
  if h2 : jsEndsWith tag "[]" = true then
    match v with
    | .vArr elems => elems.all (fun el => basicMatch (jsSliceDrop tag 2) el)
    | _ => false
  else if h1 : jsEndsWith tag "?" = true then
    basicMatch (jsSliceDrop tag 1) v || isUndefinedV v
  else
    baseBasicMatch tag v
termination_by tag.data.length
decreasing_by
  · have hs : ("[]".data : List Char) <:+ tag.data := of_decide_eq_true h2
    have hl : 2 ≤ tag.data.length := hs.length_le
    simp only [jsSliceDrop, List.length_take]
    omega
  · have hs : ("?".data : List Char) <:+ tag.data := of_decide_eq_true h1
    have hl : 1 ≤ tag.data.length := hs.length_le
    simp only [jsSliceDrop, List.length_take]
    omega

theorem basicMatch_plain (tag : String) (v : JSVal)
    (h2 : jsEndsWith tag "[]" = false) (h1 : jsEndsWith tag "?" = false) :
    basicMatch tag v = baseBasicMatch tag v := by
  conv_lhs => rw [basicMatch.eq_def]
  simp [h2, h1]

theorem basicMatch_opt (tag : String) (v : JSVal)
    (h2 : jsEndsWith tag "[]" = false) (h1 : jsEndsWith tag "?" = true) :
    basicMatch tag v = (basicMatch (jsSliceDrop tag 1) v || isUndefinedV v) := by
  conv_lhs => rw [basicMatch.eq_def]
  simp [h2, h1]

theorem basicMatch_arrTag (tag : String) (v : JSVal) (h2 : jsEndsWith tag "[]" = true) :
    basicMatch tag v =
      (match v with
       | .vArr elems => elems.all (fun el => basicMatch (jsSliceDrop tag 2) el)
       | _ => false) := by
  conv_lhs => rw [basicMatch.eq_def]
  simp [h2]

mutual

/-- The evaluator `mainGuard` of the source (lines 103-136), together
with the list-walking helpers corresponding to `every` in `andGuard`,
`tupleGuard` and `curlyObjectGuard`.  The source wraps the whole body in
`try ... catch (return false)`; since every recursive call goes
back through `mainGuard` (whose own frame catches), the only fallible
expressions inside one frame are the embedded-guard call `t(value)` and
the instance check `value instanceof t`, and both are caught in that
frame — which the `match ... | .error _ => false` arms model. -/
def mainGuard : ITD → JSVal → Bool
  | .basic tag, v => basicMatch tag v
  | .guardF g, v =>
    match g v with
    | .ok b => b
    | .error _ => false
  | .arr inner, v =>
    match v with
    | .vArr elems => elems.all (fun el => mainGuard inner el)
    | _ => false
  | .recOf inner, v =>
    (typeofStr v == "object" && !isNullV v) && (objectValues v).all (fun x => mainGuard inner x)
  | .lit ls, v => ls.any (fun l => svzLitEq l v)
  | .inst c, v =>
    match instanceCheck c v with
    | .ok b => b
    | .error _ => false
  | .andM ds, v => allDefsMatch ds v
  | .tuple ds, v =>
    match v with
    | .vArr elems => tupleMatch ds elems
    | _ => false
  | .objShape fs, v => (typeofStr v == "object" && !isNullV v) && fieldsMatch fs v
  | .undef, _ => false

/-- `t.every(g => mainGuard(g, value))` of `andGuard`. -/
def allDefsMatch : List ITD → JSVal → Bool
  | [], _ => true
  | d :: ds, v => mainGuard d v && allDefsMatch ds v

/-- `t.every((g, i) => mainGuard(g, value[i]))` of `tupleGuard`,
walking the definition list and the value list in step (reading the
head of the remaining value list is reading index `i`, `undefined`
when the value array is exhausted). -/
def tupleMatch : List ITD → List JSVal → Bool
  | [], _ => true
  | d :: ds, elems => mainGuard d (elems.headD .vUndefined) && tupleMatch ds (elems.drop 1)

/-- `Object.keys(t).every(k => mainGuard(t[k], value[k]))` of
`curlyObjectGuard`. -/
def fieldsMatch : List (String × ITD) → JSVal → Bool
  | [], _ => true
  | (k, d) :: fs, v => mainGuard d (jsGet v k) && fieldsMatch fs v

end

/-- The guard closure produced by `createGuard`: the value matches if
some member of the OR-set matches (`guardDefinitions.some`). -/
def guardEval (defs : List ITD) (v : JSVal) : Bool := defs.any (fun d => mainGuard d v)

/-- `is(t)` — a one-element OR-set. -/
def isG (t : ITD) (v : JSVal) : Bool := guardEval [t] v

/-- `isArrayOf(t)` — a one-element OR-set holding an array marker. -/
def isArrayOfG (t : ITD) (v : JSVal) : Bool := guardEval [.arr t] v

/-- `isRecordOf(t)` — a one-element OR-set holding a record marker. -/
def isRecordOfG (t : ITD) (v : JSVal) : Bool := guardEval [.recOf t] v

/-- `isLiterally(...ls)` — a one-element OR-set holding a literal set. -/
def isLiterallyG (ls : List Literal) (v : JSVal) : Bool := guardEval [.lit ls] v

/-- `isInstanceOf(c)` — a one-element OR-set holding an instance marker. -/
def isInstanceOfG (c : Ctor) (v : JSVal) : Bool := guardEval [.inst c] v

/-! ## Combinator layer

`createGuard` closes each combinator over the guard's OR-set array; a
combinator call allocates a fresh array (`[...prev, t]` etc.) and wraps
it in a new guard.  We model the array store explicitly: a heap is the
list of allocated OR-set arrays, a guard is an index into it, and every
combinator appends one freshly allocated cell, leaving all existing
cells untouched — exactly the copy-on-extend behaviour of the spread
syntax in `createOr`/`createAnd`/`createOrArrayOf`/`createOrRecordOf`/
`createOrLiterally`/`createOrInstanceOf`. -/

/-- One combinator call, with its argument. -/
inductive Comb where
  | orC (t : ITD)
  | andC (t : ITD)
  | orArrayOfC (t : ITD)
  | orRecordOfC (t : ITD)
  | orLiterallyC (ls : List Literal)
  | orInstanceOfC (c : Ctor)

/-- `createAnd`'s replacement for the last OR-set slot:
`isAndTypeDef(last) ? [...last, t] : ['&', last, t]`, where `last` is
`prevTypeDefinitions.slice(-1)[0]` (the JS `undefined` when the OR-set
is empty). -/
def andExtend : Option ITD → ITD → ITD
  | some (ITD.andM ds), t => .andM (ds ++ [t])
  | some last, t => .andM [last, t]
  | none, t => .andM [.undef, t]

/-- The OR-set of the guard a combinator call returns, as a function of
the receiver's OR-set (`createOr` line 152, `createAnd` lines 157-161,
`createOrArrayOf` line 167, `createOrRecordOf` line 172,
`createOrLiterally` line 177, `createOrInstanceOf` line 182). -/
def newOrSet (prev : List ITD) : Comb → List ITD
  | .orC t => prev ++ [t]
  | .andC t => prev.dropLast ++ [andExtend prev.getLast? t]
  | .orArrayOfC t => prev ++ [.arr t]
  | .orRecordOfC t => prev ++ [.recOf t]
  | .orLiterallyC ls => prev ++ [.lit ls]
  | .orInstanceOfC c => prev ++ [.inst c]

/-- The store of allocated OR-set arrays. -/
abbrev Heap := List (List ITD)

/-- Calling a combinator on the guard at index `i`: a fresh array is
allocated (appended to the heap) and the new guard is the index of that
fresh cell. -/
def applyComb (h : Heap) (i : Nat) (c : Comb) : Heap × Nat :=
  (h ++ [newOrSet (h.getD i []) c], h.length)

/-- Evaluating the guard at index `i` of the heap on a value. -/
def evalGuard (h : Heap) (i : Nat) (v : JSVal) : Bool := guardEval (h.getD i []) v

/-! ## The earlier grammar iteration (`src/unnamed/part_004`) -/

/-- The `BasicType` tag set of the earlier iteration, which has a
dedicated `array` tag and no `bigint`/`function`/`any`/`unknown`. -/
inductive BasicType04 where
  | undefinedT | nullT | booleanT | numberT | stringT | symbolT | objectT | arrayT

/-- `getBasicTypeCheckerFor` of the earlier iteration: its `object`
checker is `typeof v === 'object' && v !== null && !Array.isArray(v)`. -/
def getBasicTypeCheckerFor : BasicType04 → JSVal → Bool
  | .undefinedT, v => isUndefinedV v
  | .nullT, v => isNullV v
  | .booleanT, v => typeofStr v == "boolean"
  | .numberT, v => typeofStr v == "number"
  | .stringT, v => typeofStr v == "string"
  | .symbolT, v => typeofStr v == "symbol"
  | .objectT, v => typeofStr v == "object" && !isNullV v && !jsIsArray v
  | .arrayT, v => jsIsArray v

/-! ## Parsing and assertion helpers -/

/-- `parserFor(guard)`: `value => guard(value) ? value : undefined`. -/
def parserFor (g : JSVal → Bool) (v : JSVal) : JSVal :=
  if g v then v else .vUndefined

/-- Result of a call to a JS string-producing builtin: a string, the JS
`undefined` (what `JSON.stringify` returns for `undefined`, functions
and symbols at the top level), or a thrown exception. -/
inductive StrResult where
  | ok (s : String)
  | undef
  | thrown

/-- Minimal JSON string escaping (quote, backslash, newline). -/
def jsonEscapeChar (c : Char) : String :=
  if c = '"' then "\\\"" else if c = '\\' then "\\\\" else if c = '\n' then "\\n" else String.singleton c

/-- JSON quoting of a string value. -/
def jsonQuote (s : String) : String :=
  "\"" ++ String.join (s.data.map jsonEscapeChar) ++ "\""

mutual

/-- `JSON.stringify` on one value: `.error` models the `TypeError` it
throws on a `bigint`, `.ok none` the omission of `undefined`, functions
and symbols (`undefined` result at the top level, skipped key inside an
object, `null` inside an array). -/
def jsonEnc : JSVal → Except Unit (Option String)
  | .vUndefined => .ok none
  | .vFunc _ => .ok none
  | .vSym _ => .ok none
  | .vBigint _ => .error ()
  | .vNull => .ok (some "null")
  | .vBool b => .ok (some (if b then "true" else "false"))
  | .vNum n => .ok (some (toString n))
  | .vNaN => .ok (some "null")
  | .vStr s => .ok (some (jsonQuote s))
  | .vArr elems => do
    let parts ← jsonEncArr elems
    .ok (some ("[" ++ String.intercalate "," parts ++ "]"))
  | .vObj fields => do
    let parts ← jsonEncObj fields
    .ok (some ("\x7b" ++ String.intercalate "," parts ++ "\x7d"))

/-- Array elements: an omitted element renders as `null`. -/
def jsonEncArr : List JSVal → Except Unit (List String)
  | [] => .ok []
  | x :: xs => do
    let sx ← jsonEnc x
    let rest ← jsonEncArr xs
    .ok ((sx.getD "null") :: rest)

/-- Object properties: an omitted value drops the key. -/
def jsonEncObj : List (String × JSVal) → Except Unit (List String)
  | [] => .ok []
  | (k, x) :: fs => do
    let sx ← jsonEnc x
    let rest ← jsonEncObj fs
    match sx with
    | none => .ok rest
    | some s => .ok ((jsonQuote k ++ ":" ++ s) :: rest)

end

/-- The `JSON.stringify(value)` call of `requireThat`. -/
def jsonStringify (v : JSVal) : StrResult :=
  match jsonEnc v with
  | .error _ => .thrown
  | .ok none => .undef
  | .ok (some s) => .ok s

/-- The `String(value)` fallback call of `requireThat` (throws only for
a symbol).  It is reached only when `JSON.stringify` throws, i.e. when
the value contains a `bigint`; the array arm elides the recursive
element join of `Array.prototype.toString`, which no theorem below
depends on (only the boundedness of the capped preview matters). -/
def jsToStringCall : JSVal → StrResult
  | .vSym _ => .thrown
  | .vUndefined => .ok "undefined"
  | .vNull => .ok "null"
  | .vBool b => .ok (if b then "true" else "false")
  | .vNum n => .ok (toString n)
  | .vNaN => .ok "NaN"
  | .vBigint n => .ok (toString n)
  | .vStr s => .ok s
  | .vFunc _ => .ok "function () {}"
  | .vArr _ => .ok ""
  | .vObj _ => .ok "[object Object]"

/-- The preview cap: `if (preview.length > 80) preview = preview.slice(0, 77) + '...'`. -/
def capPreview (s : String) : String :=
  if s.length > 80 then s.take 77 ++ "..." else s

/-- The auto-generated failure message. -/
def autoMsg (p : String) : String :=
  "Type of '" ++ p ++ "' does not match type guard."

/-- Outcome of a `requireThat` call: normal return, the explicitly
thrown `TypeError` with its message, or the uncaught engine `TypeError`
raised by reading `.length` of the `undefined` that `JSON.stringify`
returns for `undefined`/function/symbol values (that read happens
outside both `try` blocks). -/
inductive ReqResult where
  | ok
  | typeMismatch (msg : String)
  | engineFault

/-- `requireThat(value, guard, errorMessage?)` (source lines 249-269). -/
def requireThat (v : JSVal) (g : JSVal → Bool) (errorMessage : Option String) : ReqResult :=
  if g v then .ok
  else
    match errorMessage with
    | some m => .typeMismatch m
    | none =>
      match jsonStringify v with
      | .ok s => .typeMismatch (autoMsg (capPreview s))
      | .undef => .engineFault
      | .thrown =>
        match jsToStringCall v with
        | .ok s => .typeMismatch (autoMsg (capPreview s))
        | _ => .typeMismatch (autoMsg (capPreview "[unknown value]"))

/-! ## Shared lemmas -/

theorem guardEval_singleton (t : ITD) (v : JSVal) : guardEval [t] v = mainGuard t v := by
  simp [guardEval]

theorem guardEval_append (ds es : List ITD) (v : JSVal) :
    guardEval (ds ++ es) v = (guardEval ds v || guardEval es v) := by
  simp [guardEval, List.any_append]

theorem allDefsMatch_eq_all (ds : List ITD) (v : JSVal) :
    allDefsMatch ds v = ds.all (fun d => mainGuard d v) := by
  induction ds with
  | nil => rfl
  | cons d ds ih => simp [allDefsMatch, ih]

theorem allDefsMatch_append (ds es : List ITD) (v : JSVal) :
    allDefsMatch (ds ++ es) v = (allDefsMatch ds v && allDefsMatch es v) := by
  simp [allDefsMatch_eq_all, List.all_append]

theorem basicMatch_string (v : JSVal) : basicMatch "string" v = (typeofStr v == "string") := by
  rw [basicMatch_plain _ _ (by decide) (by decide)]
  rfl

theorem basicMatch_number (v : JSVal) : basicMatch "number" v = (typeofStr v == "number") := by
  rw [basicMatch_plain _ _ (by decide) (by decide)]
  rfl

theorem basicMatch_object (v : JSVal) : basicMatch "object" v = (typeofStr v == "object") := by
  rw [basicMatch_plain _ _ (by decide) (by decide)]
  rfl

theorem basicMatch_string_opt (v : JSVal) :
    basicMatch "string?" v = (typeofStr v == "string" || isUndefinedV v) := by
  rw [basicMatch_opt _ _ (by decide) (by decide)]
  rw [show jsSliceDrop "string?" 1 = "string" from by decide, basicMatch_string]

/-! ## Claims -/

/-- C1: for every guard `a` (given by its OR-set), type definitions `b`
and `c`, and value `v`, the guard `a.or(b).and(c)` accepts `v` iff `a`
accepts `v` or `v` matches both `b` and `c`: `and` intersects only with
the last element of the OR-set, replacing that last slot with an
intersection marker (or appending to it when the last slot is already
an intersection). -/
theorem or_then_and_binds_last (a : List ITD) (b c : ITD) (v : JSVal) :
    guardEval (newOrSet (newOrSet a (.orC b)) (.andC c)) v
      = (guardEval a v || (mainGuard b v && mainGuard c v)) := by
  show guardEval ((a ++ [b]).dropLast ++ [andExtend (a ++ [b]).getLast? c]) v = _
  rw [List.dropLast_concat, List.getLast?_concat, guardEval_append, guardEval_singleton]
  cases b with
  | andM ds =>
    show (_ || mainGuard (ITD.andM (ds ++ [c])) v) = _
    show (_ || allDefsMatch (ds ++ [c]) v) = _
    rw [allDefsMatch_append]
    show (_ || (allDefsMatch ds v && (mainGuard c v && true))) = _
    simp [mainGuard]
  | basic tag => simp [andExtend, mainGuard, allDefsMatch]
  | guardF g => simp [andExtend, mainGuard, allDefsMatch]
  | arr inner => simp [andExtend, mainGuard, allDefsMatch]
  | recOf inner => simp [andExtend, mainGuard, allDefsMatch]
  | lit ls => simp [andExtend, mainGuard, allDefsMatch]
  | inst c0 => simp [andExtend, mainGuard, allDefsMatch]
  | tuple ds => simp [andExtend, mainGuard, allDefsMatch]
  | objShape fs => simp [andExtend, mainGuard, allDefsMatch]
  | undef => simp [andExtend, mainGuard, allDefsMatch]

/-- C2: every combinator call (on any guard `j` of the store) allocates
a fresh OR-set array and returns a new guard; the behaviour of every
existing guard `i` is unchanged — the OR-set is copied on extension,
never appended in place. -/
theorem combinators_preserve_existing_guards (h : Heap) (j : Nat) (cb : Comb) (i : Nat)
    (v : JSVal) (hi : i < h.length) :
    evalGuard (applyComb h j cb).1 i v = evalGuard h i v ∧ (applyComb h j cb).2 ≠ i := by
  constructor
  · show evalGuard (h ++ [newOrSet (h.getD j []) cb]) i v = evalGuard h i v
    unfold evalGuard
    rw [List.getD_append _ _ _ _ hi]
  · show h.length ≠ i
    omega

/-- Witness for C2, instantiating the spec's no-mutation scenario:
`g0 = is('string')` lives at index 0, `g0.or('number')` is called, and
`g0`'s result on the value `0` is unchanged (and the derived guard is a
new index). -/
theorem combinators_preserve_existing_guards_witness :
    0 < ([[ITD.basic "string"]] : Heap).length ∧
      (evalGuard (applyComb [[ITD.basic "string"]] 0 (Comb.orC (ITD.basic "number"))).1 0 (JSVal.vNum 0)
          = evalGuard [[ITD.basic "string"]] 0 (JSVal.vNum 0) ∧
        (applyComb [[ITD.basic "string"]] 0 (Comb.orC (ITD.basic "number"))).2 ≠ 0) :=
  ⟨by decide, combinators_preserve_existing_guards _ 0 _ 0 _ (by decide)⟩

/-- C3: guard evaluation is total — it always yields a boolean — and
internal exceptions are converted to a non-match: an embedded custom
guard that throws yields `false` (also when nested inside further
structure), and an instance check against a non-constructor yields
`false`. -/
theorem evaluator_total_and_catches (v : JSVal) (g : JSVal → Except Unit Bool) (c : Ctor)
    (hg : g v = Except.error ()) (hc : instanceCheck c v = Except.error ()) :
    mainGuard (.guardF g) v = false ∧
    mainGuard (.inst c) v = false ∧
    mainGuard (.arr (.guardF g)) (.vArr [v]) = false ∧
    guardEval [.guardF g] v = false ∧
    (∀ t : ITD, mainGuard t v = true ∨ mainGuard t v = false) := by
  have h1 : mainGuard (.guardF g) v = false := by
    simp only [mainGuard, hg]
  have h2 : mainGuard (.inst c) v = false := by
    simp only [mainGuard, hc]
  refine ⟨h1, h2, ?_, ?_, fun t => ?_⟩
  · show ([v].all (fun el => mainGuard (.guardF g) el)) = false
    simp only [List.all_cons, List.all_nil, h1, Bool.false_and]
  · show ([ITD.guardF g].any (fun d => mainGuard d v)) = false
    simp only [List.any_cons, List.any_nil, h1, Bool.or_false]
  · cases hmg : mainGuard t v
    · exact Or.inr rfl
    · exact Or.inl rfl

/-- Witness for C3: a guard that always throws and an invalid
constructor, evaluated at `null`. -/
theorem evaluator_total_and_catches_witness :
    ((fun _ : JSVal => (Except.error () : Except Unit Bool)) JSVal.vNull = Except.error ()) ∧
    (instanceCheck Ctor.invalid JSVal.vNull = Except.error ()) ∧
    (mainGuard (.guardF (fun _ => Except.error ())) JSVal.vNull = false ∧
     mainGuard (.inst Ctor.invalid) JSVal.vNull = false ∧
     mainGuard (.arr (.guardF (fun _ => Except.error ()))) (.vArr [JSVal.vNull]) = false ∧
     guardEval [.guardF (fun _ => Except.error ())] JSVal.vNull = false ∧
     (∀ t : ITD, mainGuard t JSVal.vNull = true ∨ mainGuard t JSVal.vNull = false)) :=
  ⟨rfl, rfl, evaluator_total_and_catches JSVal.vNull _ _ rfl rfl⟩

/-- C4: for every basic tag and every value, `is(tag)` agrees with the
corresponding primitive-type test: `typeof`-equality for the `typeof`
tags, truth for `any`/`unknown`, strict `null`/`undefined` equality for
those tags. -/
theorem basic_tags_agree_with_typeof (v : JSVal) :
    isG (.basic "any") v = true ∧
    isG (.basic "unknown") v = true ∧
    isG (.basic "boolean") v = (typeofStr v == "boolean") ∧
    isG (.basic "bigint") v = (typeofStr v == "bigint") ∧
    isG (.basic "function") v = (typeofStr v == "function") ∧
    isG (.basic "number") v = (typeofStr v == "number") ∧
    isG (.basic "object") v = (typeofStr v == "object") ∧
    isG (.basic "string") v = (typeofStr v == "string") ∧
    isG (.basic "symbol") v = (typeofStr v == "symbol") ∧
    isG (.basic "null") v = isNullV v ∧
    isG (.basic "undefined") v = isUndefinedV v := by
  have base : ∀ tag, jsEndsWith tag "[]" = false → jsEndsWith tag "?" = false →
      isG (.basic tag) v = baseBasicMatch tag v := by
    intro tag e2 e1
    rw [isG, guardEval_singleton]
    show basicMatch tag v = _
    rw [basicMatch_plain _ _ e2 e1]
  refine ⟨?_, ?_, ?_, ?_, ?_, ?_, ?_, ?_, ?_, ?_, ?_⟩ <;>
    rw [base _ (by decide) (by decide)] <;> rfl

/-- C5 counterexample: the claim says the record quantifier rejects
every array value, but `recordGuard` tests only
`typeof value === 'object' && value !== null` before walking
`Object.values(value)`, and an array passes that test — so
`isRecordOf('string')(['a'])` is `true`, not `false`. -/
theorem recordOf_accepts_array_counterexample :
    isRecordOfG (.basic "string") (.vArr [JSVal.vStr "a"]) = true := by
  rw [isRecordOfG, guardEval_singleton]
  show ((typeofStr _ == "object" && _) && List.all _ _) = true
  simp only [typeofStr, objectValues, isNullV, List.all_cons, List.all_nil]
  show (_ && (basicMatch "string" (.vStr "a") && true)) = true
  rw [basicMatch_string]
  rfl

/-- C5 amended: `isRecordOf(d)(v)` is `true` iff `v` is a non-null
value with `typeof v === 'object'` — a plain object **or an array** —
whose own enumerable values (array elements included) all satisfy `d`;
the empty mapping is accepted vacuously.  (The claim's array-rejection
clause does not hold: the code never calls `Array.isArray` here.) -/
theorem recordOf_characterization (d : ITD) (v : JSVal) :
    (isRecordOfG d v = true ↔
      (typeofStr v = "object" ∧ isNullV v = false ∧
        ∀ x ∈ objectValues v, mainGuard d x = true)) ∧
    isRecordOfG d (.vObj []) = true := by
  constructor
  · rw [isRecordOfG, guardEval_singleton]
    show ((typeofStr v == "object" && !isNullV v) && (objectValues v).all (fun x => mainGuard d x)) = true ↔ _
    simp [List.all_eq_true, Bool.and_eq_true, beq_iff_eq, and_assoc]
  · rw [isRecordOfG, guardEval_singleton]
    rfl

/-- Witness for C5's amended theorem: a one-field record of strings. -/
theorem recordOf_characterization_witness :
    isRecordOfG (.basic "string") (.vObj [("a", JSVal.vStr "x")]) = true := by
  refine (recordOf_characterization (.basic "string") _).1.mpr ⟨rfl, rfl, ?_⟩
  intro x hx
  simp only [objectValues, List.map_cons, List.map_nil, List.mem_singleton] at hx
  subst hx
  show basicMatch "string" (.vStr "x") = true
  rw [basicMatch_string]
  rfl

/-- C6 counterexample: in the latest grammar iteration
(`src/index.tsx`), `objectGuard` is `typeof v === 'object'`, and
`typeof null === 'object'`, so `is('object')(null)` is `true` — the
claim says it is `false`. -/
theorem object_tag_accepts_null_counterexample :
    isG (.basic "object") JSVal.vNull = true := by
  rw [isG, guardEval_singleton]
  show basicMatch "object" JSVal.vNull = true
  rw [basicMatch_object]
  rfl

/-- C6 amended: it is the *earlier* grammar iteration
(`getBasicTypeCheckerFor`) whose `object` tag excludes `null` and
arrays (with a dedicated `array` tag); the latest iteration's bare
`object` tag is plain `typeof v === 'object'` and therefore accepts
`null` and every array value. -/
theorem object_tag_latest_vs_early (v : JSVal) (elems : List JSVal) :
    isG (.basic "object") v = (typeofStr v == "object") ∧
    isG (.basic "object") JSVal.vNull = true ∧
    isG (.basic "object") (.vArr elems) = true ∧
    getBasicTypeCheckerFor .objectT JSVal.vNull = false ∧
    getBasicTypeCheckerFor .objectT (.vArr elems) = false ∧
    getBasicTypeCheckerFor .arrayT (.vArr elems) = true := by
  have hobj : ∀ w, isG (.basic "object") w = (typeofStr w == "object") := by
    intro w
    rw [isG, guardEval_singleton]
    show basicMatch "object" w = _
    rw [basicMatch_object]
  exact ⟨hobj v, hobj _, hobj _, rfl, rfl, rfl⟩

/-- C7 counterexample: `literalGuard` decides membership with
`t.includes(value)`, whose comparison is SameValueZero, not `===`: at
`isLiterally(NaN)(NaN)` the guard returns `true` although no member of
the literal set is strictly equal (`===`) to the value — `NaN === NaN`
is `false` — so the claim's iff fails as stated. -/
theorem literally_nan_counterexample :
    isLiterallyG [Literal.nan] JSVal.vNaN = true ∧
    strictLitEq Literal.nan JSVal.vNaN = false := by decide

/-- C7 amended: `isLiterally(...vs)(v)` is `true` iff some member of
`vs` matches `v` under SameValueZero (the comparison of
`Array.prototype.includes`): strict equality (`===`), except that a
`NaN` member additionally matches the value `NaN`.  There is still no
coercion: `isLiterally('5')(5)` and `isLiterally(5)('5')` are both
`false`, while `isLiterally(NaN)(NaN)` is `true`. -/
theorem literally_samevaluezero_membership (ls : List Literal) (v : JSVal) :
    (isLiterallyG ls v = true ↔
      ∃ l ∈ ls, strictLitEq l v = true ∨ (l = Literal.nan ∧ v = JSVal.vNaN)) ∧
    isLiterallyG [Literal.str "5"] (JSVal.vNum 5) = false ∧
    isLiterallyG [Literal.num 5] (JSVal.vStr "5") = false ∧
    isLiterallyG [Literal.nan] JSVal.vNaN = true := by
  have svz_iff : ∀ (l : Literal) (w : JSVal),
      svzLitEq l w = true ↔ (strictLitEq l w = true ∨ (l = Literal.nan ∧ w = JSVal.vNaN)) := by
    intro l w
    cases l <;> cases w <;> simp [svzLitEq, strictLitEq]
  refine ⟨?_, by decide, by decide, by decide⟩
  rw [isLiterallyG, guardEval_singleton]
  show (ls.any (fun l => svzLitEq l v)) = true ↔ _
  simp only [List.any_eq_true, svz_iff]

/-- Witness for C7's amended theorem: a strictly-equal member matches. -/
theorem literally_samevaluezero_membership_witness :
    isLiterallyG [Literal.num 5] (JSVal.vNum 5) = true :=
  (literally_samevaluezero_membership [Literal.num 5] (JSVal.vNum 5)).1.mpr
    ⟨Literal.num 5, by simp, Or.inl (by decide)⟩

/-- C8 (code bug): at the failing input `requireThat(undefined, is('string'))`
with no caller message, `JSON.stringify(undefined)` returns `undefined`
(not a string and not a throw), so the unguarded `preview.length` read
raises the engine's own `TypeError` instead of the documented
auto-generated bounded-preview message (README: «Error message: Type of
'value' does not match type guard.»).  The theorem evaluates the model
there, and shows the adjacent behaviours the claim gets right: the
caller-supplied message is used when given, a match returns normally,
and for values whose representation is obtained the preview is capped
at 80 characters. -/
theorem requireThat_undefined_engine_fault :
    requireThat JSVal.vUndefined (isG (.basic "string")) none = ReqResult.engineFault ∧
    requireThat JSVal.vUndefined (isG (.basic "string")) (some "custom") =
      ReqResult.typeMismatch "custom" ∧
    requireThat (JSVal.vStr "a") (isG (.basic "string")) none = ReqResult.ok ∧
    requireThat JSVal.vNull (isG (.basic "string")) none =
      ReqResult.typeMismatch (autoMsg "null") ∧
    (∀ s : String, (capPreview s).length ≤ 80) := by
  have hguard : ∀ w, isG (.basic "string") w = (typeofStr w == "string") := by
    intro w
    rw [isG, guardEval_singleton]
    exact basicMatch_string w
  have hcap : ∀ s : String, (capPreview s).length ≤ 80 := by
    intro s
    unfold capPreview
    by_cases hlen : s.length > 80
    · rw [if_pos hlen, String.length_append, String.take_eq]
      have h77 : (String.mk (s.data.take 77)).length ≤ 77 := by
        show (s.data.take 77).length ≤ 77
        simp
      have hdots : ("..." : String).length = 3 := rfl
      omega
    · rw [if_neg hlen]
      omega
  refine ⟨?_, ?_, ?_, ?_, hcap⟩
  · simp [requireThat, hguard, typeofStr, jsonStringify, jsonEnc]
  · simp [requireThat, hguard, typeofStr]
  · simp [requireThat, hguard, typeofStr]
  · simp [requireThat, hguard, typeofStr, jsonStringify, jsonEnc, capPreview]
    rw [if_neg (by decide)]

/-- C9: `parserFor(g)(v)` returns `v` itself when the guard accepts and
the absent sentinel `undefined` when it rejects, for every guard built
from an OR-set. -/
theorem parserFor_roundtrip (defs : List ITD) (v : JSVal) :
    (guardEval defs v = true → parserFor (guardEval defs) v = v) ∧
    (guardEval defs v = false → parserFor (guardEval defs) v = JSVal.vUndefined) := by
  constructor <;> intro h <;> simp [parserFor, h]

/-- Witness for C9: a literal guard on a matching and a non-matching
value. -/
theorem parserFor_roundtrip_witness :
    parserFor (guardEval [.lit [Literal.num 3]]) (JSVal.vNum 3) = JSVal.vNum 3 ∧
    parserFor (guardEval [.lit [Literal.num 3]]) (JSVal.vStr "") = JSVal.vUndefined :=
  ⟨(parserFor_roundtrip [.lit [Literal.num 3]] (JSVal.vNum 3)).1 (by decide),
   (parserFor_roundtrip [.lit [Literal.num 3]] (JSVal.vStr "")).2 (by decide)⟩

theorem jsIndex_zero (elems : List JSVal) : elems.headD .vUndefined = jsIndex elems 0 := by
  cases elems <;> rfl

theorem jsIndex_drop (elems : List JSVal) (n : Nat) :
    jsIndex (elems.drop 1) n = jsIndex elems (n + 1) := by
  cases elems with
  | nil => simp [jsIndex]
  | cons x xs => rfl

/-- C10: the tuple guard reads each definition position `i` as the
value's property at index `i` (`undefined` when absent), so an array
shorter than the tuple definition matches exactly when every position —
including the missing ones, read as `undefined` — is accepted; in
particular `is(['string?'])([])` is `true`. -/
theorem tuple_reads_undefined_beyond_value (ds : List ITD) (elems : List JSVal) :
    (mainGuard (.tuple ds) (.vArr elems) = true ↔
      ∀ (i : Nat) (h : i < ds.length), mainGuard (ds.get ⟨i, h⟩) (jsIndex elems i) = true) ∧
    isG (.tuple [.basic "string?"]) (.vArr []) = true := by
  have main : ∀ (ds : List ITD) (elems : List JSVal),
      tupleMatch ds elems = true ↔
        ∀ (i : Nat) (h : i < ds.length), mainGuard (ds.get ⟨i, h⟩) (jsIndex elems i) = true := by
    intro ds
    induction ds with
    | nil => intro elems; simp [tupleMatch]
    | cons d ds ih =>
      intro elems
      show (mainGuard d (elems.headD .vUndefined) && tupleMatch ds (elems.drop 1)) = true ↔ _
      rw [Bool.and_eq_true, ih, jsIndex_zero]
      constructor
      · rintro ⟨h0, hrest⟩ i hi
        cases i with
        | zero => exact h0
        | succ n =>
          rw [← jsIndex_drop]
          exact hrest n (by simpa using hi)
      · intro hall
        refine ⟨hall 0 (by simp), fun n hn => ?_⟩
        rw [jsIndex_drop]
        exact hall (n + 1) (by simpa using hn)
  refine ⟨main ds elems, ?_⟩
  rw [isG, guardEval_singleton]
  show tupleMatch [.basic "string?"] [] = true
  show (mainGuard (.basic "string?") (([] : List JSVal).headD .vUndefined) && true) = true
  show (basicMatch "string?" .vUndefined && true) = true
  rw [basicMatch_string_opt]
  rfl

/-- Witness for C10: a one-slot tuple accepts a longer array (the extra
element is unconstrained), via the characterization. -/
theorem tuple_reads_undefined_beyond_value_witness :
    mainGuard (.tuple [.lit [Literal.num 7]]) (.vArr [JSVal.vNum 7, JSVal.vStr "extra"]) = true := by
  refine (tuple_reads_undefined_beyond_value [.lit [Literal.num 7]] _).1.mpr ?_
  intro i h
  have hi : i = 0 := Nat.lt_one_iff.mp h
  subst hi
  show mainGuard (ITD.lit [Literal.num 7]) (jsIndex [JSVal.vNum 7, JSVal.vStr "extra"] 0) = true
  decide

end TsG
